import Mathlib

/-!
Verification of the Somfy thermostat climate adapter
(custom_components/somfy/climate.py) against its specification.

The adapter is a set of pure read properties and command methods over a
vendor thermostat handle (pymfy Thermostat).  We embed the vendor handle as
an explicit record of the values its getters report, and each adapter
method as a pure function of that record.  Command methods return the list
of vendor setter / logging effects they perform; `set_preset_mode`
additionally returns through `Except` because it contains a raising dict
bracket access (`REVERSE_PRESET_MAPPING[preset_mode]`).

Temperatures are embedded as rationals: the claims only use order
comparisons and zero tests on decimal literals, on which `Float` and `Rat`
agree.
-/

/-- Vendor enumeration `pymfy.api.devices.thermostat.TargetMode`
(a plain Python `Enum`, so members never compare equal to `str` values). -/
inductive TargetMode
  | at_home
  | away
  | sleep
  | manual
  | geofencing
deriving DecidableEq

/-- Vendor enumeration `pymfy.api.devices.thermostat.HvacState`. -/
inductive HvacState
  | cool
  | heat
deriving DecidableEq

/-- Vendor enumeration `pymfy.api.devices.thermostat.RegulationState`. -/
inductive RegulationState
  | manual
  | timetable
deriving DecidableEq

/-- Vendor enumeration `pymfy.api.devices.thermostat.DurationType`. -/
inductive DurationType
  | next_mode
  | further_notice
deriving DecidableEq

/-- A Python value that can occur as a key or value of the preset mapping
dicts: either a platform preset `str` or a vendor `TargetMode` enum member.
Python `==` between a `str` and a plain `Enum` member is always `False`,
which the derived `BEq` reproduces as the constructor mismatch. -/
inductive PyVal
  | s (v : String)
  | tm (v : TargetMode)
deriving DecidableEq

/-- Platform constant `PRESET_HOME`. -/
def PRESET_HOME : String := "home"

/-- Platform constant `PRESET_AWAY`. -/
def PRESET_AWAY : String := "away"

/-- Platform constant `PRESET_SLEEP`. -/
def PRESET_SLEEP : String := "sleep"

/-- Platform constant `PRESET_NONE`. -/
def PRESET_NONE : String := "none"

/-- Platform constant `PRESET_ACTIVITY`. -/
def PRESET_ACTIVITY : String := "activity"

/-- Platform constant `HVAC_MODE_AUTO`. -/
def HVAC_MODE_AUTO : String := "auto"

/-- Platform constant `HVAC_MODE_COOL`. -/
def HVAC_MODE_COOL : String := "cool"

/-- Platform constant `HVAC_MODE_HEAT`. -/
def HVAC_MODE_HEAT : String := "heat"

/-- Platform constant `CURRENT_HVAC_HEAT`. -/
def CURRENT_HVAC_HEAT : String := "heating"

/-- Platform constant `CURRENT_HVAC_IDLE`. -/
def CURRENT_HVAC_IDLE : String := "idle"

/-- Python `dict.get`: first binding whose key compares `==` to the
requested key (the embedded dicts bind each key once). -/
def dictGet {κ β : Type} [BEq κ] (d : List (κ × β)) (k : κ) : Option β :=
  (d.find? (fun kv => kv.fst == k)).map (fun kv => kv.snd)

/-- climate.py lines 39-45: `PRESETS_MAPPING`, keyed by `TargetMode`
members with platform preset strings as values. -/
def PRESETS_MAPPING : List (PyVal × PyVal) :=
  [ (PyVal.tm TargetMode.at_home, PyVal.s PRESET_HOME),
    (PyVal.tm TargetMode.away, PyVal.s PRESET_AWAY),
    (PyVal.tm TargetMode.sleep, PyVal.s PRESET_SLEEP),
    (PyVal.tm TargetMode.manual, PyVal.s PRESET_NONE),
    (PyVal.tm TargetMode.geofencing, PyVal.s PRESET_ACTIVITY) ]

/-- climate.py line 46: the dict comprehension
inverting `PRESETS_MAPPING`. -/
def REVERSE_PRESET_MAPPING : List (PyVal × PyVal) :=
  PRESETS_MAPPING.map (fun kv => (kv.snd, kv.fst))

/-- climate.py line 48: `HVAC_MODES_MAPPING`. -/
def HVAC_MODES_MAPPING : List (HvacState × String) :=
  [ (HvacState.cool, HVAC_MODE_COOL),
    (HvacState.heat, HVAC_MODE_HEAT) ]

/-- The values the vendor `Thermostat` handle reports through its getters:
one field per outbound getter the adapter calls.  Temperature-like readings
are `Option Rat` (`none` embeds Python `None`). -/
structure ThermostatState where
  ambient_temperature : Option Rat
  humidity : Option Rat
  target_temperature : Option Rat
  hvac_state : HvacState
  regulation_state : RegulationState
  target_mode : TargetMode
  battery : Option Rat
  at_home_temperature : Option Rat
  away_temperature : Option Rat
  night_temperature : Option Rat
deriving DecidableEq

/-- An observable side effect of a command method: a vendor setter call or
an error-log line. -/
inductive Effect
  | setTarget (mode : PyVal) (temp : Option Rat) (duration : DurationType)
  | cancelTarget
  | logError (preset : String)
deriving DecidableEq

/-- Python truthiness of an optional temperature: `None` and `0.0` are
falsy, every other float is truthy. -/
def pyTruthy : Option Rat → Bool
  | none => false
  | some x => decide (x ≠ 0)

/-- Python `<` on the two temperature readings (only reached when both are
present). -/
def optLt : Option Rat → Option Rat → Bool
  | some a, some b => decide (a < b)
  | _, _ => false

/-- Python `>` on the two temperature readings. -/
def optGt : Option Rat → Option Rat → Bool
  | some a, some b => decide (b < a)
  | _, _ => false

namespace SomfyClimate

/-- climate.py lines 98-101: `current_temperature`. -/
def current_temperature (st : ThermostatState) : Option Rat :=
  st.ambient_temperature

/-- climate.py lines 103-106: `target_temperature`. -/
def target_temperature (st : ThermostatState) : Option Rat :=
  st.target_temperature

/-- climate.py lines 126-129: `current_humidity`. -/
def current_humidity (st : ThermostatState) : Option Rat :=
  st.humidity

/-- climate.py lines 116-119: `max_temp`. -/
def max_temp : Rat := 26

/-- climate.py lines 121-124: `min_temp`. -/
def min_temp : Rat := 15

/-- climate.py lines 131-137: `hvac_mode`.  Returns `HVAC_MODE_AUTO` when
the regulation state is `TIMETABLE`, otherwise the `dict.get` lookup of the
vendor hvac state (an `Optional[str]`). -/
def hvac_mode (st : ThermostatState) : Option String :=
  if st.regulation_state = RegulationState.timetable then
    some HVAC_MODE_AUTO
  else
    dictGet HVAC_MODES_MAPPING st.hvac_state

/-- climate.py lines 156-174: `hvac_action`.  The guard uses Python
truthiness (`not self.current_temperature`), and both active branches
return `CURRENT_HVAC_HEAT`. -/
def hvac_action (st : ThermostatState) : String :=
  if !pyTruthy (current_temperature st) || !pyTruthy (target_temperature st) then
    CURRENT_HVAC_IDLE
  else if hvac_mode st == some HVAC_MODE_HEAT
      && optLt (current_temperature st) (target_temperature st) then
    CURRENT_HVAC_HEAT
  else if hvac_mode st == some HVAC_MODE_COOL
      && optGt (current_temperature st) (target_temperature st) then
    CURRENT_HVAC_HEAT
  else
    CURRENT_HVAC_IDLE

/-- climate.py lines 176-180: `preset_mode`.  The code looks the vendor
`TargetMode` member up in `REVERSE_PRESET_MAPPING`, whose keys are platform
preset strings, so the `dict.get` compares a `str` key with a `TargetMode`
member. -/
def preset_mode (st : ThermostatState) : Option PyVal :=
  dictGet REVERSE_PRESET_MAPPING (PyVal.tm st.target_mode)

/-- climate.py lines 182-185: `preset_modes`. -/
def preset_modes : List PyVal :=
  PRESETS_MAPPING.map (fun kv => kv.snd)

/-- climate.py lines 108-114: `set_temperature`. -/
def set_temperature (_st : ThermostatState) (temp : Option Rat) : List Effect :=
  match temp with
  | none => []
  | some t =>
      [Effect.setTarget (PyVal.tm TargetMode.manual) (some t) DurationType.next_mode]

/-- climate.py lines 145-154: `set_hvac_mode`. -/
def set_hvac_mode (st : ThermostatState) (m : String) : List Effect :=
  if hvac_mode st == some m then
    []
  else if m = HVAC_MODE_AUTO then
    [Effect.cancelTarget]
  else
    [Effect.setTarget (PyVal.tm TargetMode.manual) (target_temperature st)
      DurationType.further_notice]

/-- climate.py lines 187-206: `set_preset_mode`.  The early-return guard
compares the requested preset string with the `preset_mode` read under
Python `==`; the final `REVERSE_PRESET_MAPPING[preset_mode]` bracket access
raises `KeyError` on a missing key, embedded through `Except`. -/
def set_preset_mode (st : ThermostatState) (preset : String) :
    Except String (List Effect) :=
  if preset_mode st == some (PyVal.s preset) then
    Except.ok []
  else
    let temp? : Option (Option Rat) :=
      if preset = PRESET_HOME then some st.at_home_temperature
      else if preset = PRESET_AWAY then some st.away_temperature
      else if preset = PRESET_SLEEP then some st.night_temperature
      else if preset = PRESET_NONE then some (target_temperature st)
      else none
    match temp? with
    | none => Except.ok [Effect.logError preset]
    | some temperature =>
        match dictGet REVERSE_PRESET_MAPPING (PyVal.s preset) with
        | some mode => Except.ok [Effect.setTarget mode temperature DurationType.next_mode]
        | none => Except.error "KeyError"

end SomfyClimate

/-- pymfy `Category.HVAC.value`. -/
def CategoryHVAC : String := "hvac"

/-- climate.py line 37: `SUPPORTED_CATEGORIES`. -/
def SUPPORTED_CATEGORIES : List String := [CategoryHVAC]

/-- A registry entry: the category tags a device descriptor carries. -/
structure Device where
  categories : List String
deriving DecidableEq

/-- A discovered adapter instance, identified by the device it wraps. -/
structure SomfyClimateRef where
  device_id : String
deriving DecidableEq

/-- Python truthiness of `SUPPORTED_CATEGORIES & set(device.categories)`:
the set intersection is non-empty. -/
def setIntersects (a b : List String) : Bool :=
  a.any (fun x => b.contains x)

/-- climate.py lines 54-64: `get_thermostats`, one adapter per registry
entry whose categories intersect `SUPPORTED_CATEGORIES`. -/
def get_thermostats (registry : List (String × Device)) : List SomfyClimateRef :=
  (registry.filter (fun kv => setIntersects SUPPORTED_CATEGORIES kv.snd.categories)).map
    (fun kv => { device_id := kv.fst })

/-! ## Concrete device states used by the claim theorems -/

/-- A device following its timetable in the at-home profile. -/
def stDemoAtHome : ThermostatState :=
  { ambient_temperature := some 21
    humidity := some 40
    target_temperature := some 20
    hvac_state := HvacState.heat
    regulation_state := RegulationState.timetable
    target_mode := TargetMode.at_home
    battery := some 80
    at_home_temperature := some 19
    away_temperature := some 16
    night_temperature := some 17 }

/-- A manually regulated cooling device whose ambient temperature (24.0) is
above its target (20.0). -/
def stCoolAbove : ThermostatState :=
  { ambient_temperature := some 24
    humidity := some 40
    target_temperature := some 20
    hvac_state := HvacState.cool
    regulation_state := RegulationState.manual
    target_mode := TargetMode.manual
    battery := some 80
    at_home_temperature := some 19
    away_temperature := some 16
    night_temperature := some 17 }

/-- Helper: the `preset_mode` read misses for every vendor mode, because
the `TargetMode` key never compares `==` to the preset-string keys of
`REVERSE_PRESET_MAPPING`. -/
theorem preset_mode_none_aux (st : ThermostatState) :
    SomfyClimate.preset_mode st = none := by
  unfold SomfyClimate.preset_mode
  cases st.target_mode <;> rfl

/-! ## Claim theorems -/

/-- Claim C1: the spec says the preset_mode read maps AT_HOME to home,
AWAY to away, SLEEP to sleep, MANUAL to none and GEOFENCING to activity via
the forward mapping.  The code instead looks the vendor mode up in
REVERSE_PRESET_MAPPING, whose keys are preset strings, so the read returns
no value for AT_HOME (and indeed for every supported vendor mode). -/
theorem preset_mode_read_misses_for_at_home :
    SomfyClimate.preset_mode stDemoAtHome = none ∧
    (SomfyClimate.preset_mode stDemoAtHome ≠ some (PyVal.s PRESET_HOME)) := by
  exact ⟨rfl, by decide⟩

/-- Claim C2 counterexample: with current=24.0, target=20.0 and the device
cooling under manual regulation, hvac_action returns CURRENT_HVAC_HEAT, the
very heating label, not an action distinct from the heating action. -/
theorem hvac_action_cool_above_returns_heat_label :
    SomfyClimate.hvac_mode stCoolAbove = some HVAC_MODE_COOL ∧
    SomfyClimate.hvac_action stCoolAbove = CURRENT_HVAC_HEAT :=
  ⟨rfl, rfl⟩

/-- Claim C2 (amended): for every device state where hvac_mode is COOL and
the present, non-zero current temperature is strictly greater than the
present, non-zero target temperature, hvac_action returns the same
CURRENT_HVAC_HEAT action as the heating branch. -/
theorem hvac_action_cool_branch_is_heating_action (st : ThermostatState)
    (c t : Rat)
    (hreg : st.regulation_state ≠ RegulationState.timetable)
    (hcool : st.hvac_state = HvacState.cool)
    (hc : st.ambient_temperature = some c)
    (ht : st.target_temperature = some t)
    (hc0 : c ≠ 0) (ht0 : t ≠ 0)
    (hgt : t < c) :
    SomfyClimate.hvac_action st = CURRENT_HVAC_HEAT := by
  have hmode : SomfyClimate.hvac_mode st = some HVAC_MODE_COOL := by
    unfold SomfyClimate.hvac_mode
    rw [if_neg hreg, hcool]
    rfl
  have hnlt : ¬ c < t := not_lt.mpr hgt.le
  unfold SomfyClimate.hvac_action SomfyClimate.current_temperature
    SomfyClimate.target_temperature
  rw [hc, ht, hmode]
  simp [pyTruthy, optLt, optGt, hc0, ht0, hgt, hnlt, HVAC_MODE_COOL, HVAC_MODE_HEAT]

/-- Claim C2 witness: a concrete manually-regulated cooling state with
current 25.0 above target 21.0. -/
theorem hvac_action_cool_branch_is_heating_action_witness :
    SomfyClimate.hvac_action
      { ambient_temperature := some 25
        humidity := none
        target_temperature := some 21
        hvac_state := HvacState.cool
        regulation_state := RegulationState.manual
        target_mode := TargetMode.manual
        battery := none
        at_home_temperature := none
        away_temperature := none
        night_temperature := none } = CURRENT_HVAC_HEAT :=
  hvac_action_cool_branch_is_heating_action _ 25 21 (by decide) rfl rfl rfl
    (by decide) (by decide) (by decide)

/-- Claim C3: the spec says set_preset_mode is a no-op when the requested
preset equals the current preset.  Because the preset_mode read always
returns no value (see the REVERSE_PRESET_MAPPING lookup), the no-op guard
never fires: requesting home while the vendor is already in the AT_HOME
profile performs a vendor set_target write instead of zero calls. -/
theorem set_preset_mode_home_when_at_home_writes :
    SomfyClimate.set_preset_mode stDemoAtHome PRESET_HOME =
      Except.ok [Effect.setTarget (PyVal.tm TargetMode.at_home)
        stDemoAtHome.at_home_temperature DurationType.next_mode] ∧
    SomfyClimate.set_preset_mode stDemoAtHome PRESET_HOME ≠ Except.ok [] := by
  refine ⟨rfl, fun h => ?_⟩
  exact absurd (Except.ok.inj h) (by decide)

/-- Claim C4: for every preset argument outside the supported set
{home, away, sleep, none, activity}, set_preset_mode logs an
unsupported-preset error, performs no vendor setter call, and returns
normally (raises no exception). -/
theorem set_preset_mode_unsupported_logs_only (st : ThermostatState)
    (p : String)
    (h1 : p ≠ PRESET_HOME) (h2 : p ≠ PRESET_AWAY) (h3 : p ≠ PRESET_SLEEP)
    (h4 : p ≠ PRESET_NONE) (_h5 : p ≠ PRESET_ACTIVITY) :
    SomfyClimate.set_preset_mode st p = Except.ok [Effect.logError p] := by
  unfold SomfyClimate.set_preset_mode
  rw [preset_mode_none_aux st]
  simp [h1, h2, h3, h4]

/-- Claim C4 witness: the preset string bogus is rejected with a logged
error and no setter call, on a concrete device state. -/
theorem set_preset_mode_unsupported_logs_only_witness :
    SomfyClimate.set_preset_mode stDemoAtHome "bogus" =
      Except.ok [Effect.logError "bogus"] :=
  set_preset_mode_unsupported_logs_only stDemoAtHome "bogus"
    (by decide) (by decide) (by decide) (by decide) (by decide)

/-- Claim C5: the preset mapping tables form a bijection: forward then
reverse lookup is the identity on every vendor TargetMode, and reverse then
forward lookup is the identity on every platform preset the adapter
advertises. -/
theorem preset_mapping_round_trip :
    (∀ m : TargetMode,
       (dictGet PRESETS_MAPPING (PyVal.tm m)).bind
          (fun p => dictGet REVERSE_PRESET_MAPPING p) = some (PyVal.tm m)) ∧
    (∀ p, p ∈ SomfyClimate.preset_modes →
       (dictGet REVERSE_PRESET_MAPPING p).bind
          (fun v => dictGet PRESETS_MAPPING v) = some p) := by
  constructor
  · intro m
    cases m <;> rfl
  · intro p hp
    simp [SomfyClimate.preset_modes, PRESETS_MAPPING] at hp
    rcases hp with rfl | rfl | rfl | rfl | rfl <;> rfl

/-- Claim C5 witness: the round trip at the concrete preset home. -/
theorem preset_mapping_round_trip_witness :
    (dictGet REVERSE_PRESET_MAPPING (PyVal.s PRESET_HOME)).bind
        (fun v => dictGet PRESETS_MAPPING v) = some (PyVal.s PRESET_HOME) :=
  preset_mapping_round_trip.2 (PyVal.s PRESET_HOME)
    (by simp [SomfyClimate.preset_modes, PRESETS_MAPPING])

/-- Claim C6: hvac_mode returns AUTO whenever the vendor regulation state
is TIMETABLE, for every vendor hvac state; otherwise it returns the mapped
hvac state, HEAT for HEAT and COOL for COOL. -/
theorem hvac_mode_timetable_auto_else_mapped (st : ThermostatState) :
    (st.regulation_state = RegulationState.timetable →
       SomfyClimate.hvac_mode st = some HVAC_MODE_AUTO) ∧
    (st.regulation_state ≠ RegulationState.timetable →
       (st.hvac_state = HvacState.heat →
          SomfyClimate.hvac_mode st = some HVAC_MODE_HEAT) ∧
       (st.hvac_state = HvacState.cool →
          SomfyClimate.hvac_mode st = some HVAC_MODE_COOL)) := by
  refine ⟨fun h => ?_, fun h => ⟨fun h2 => ?_, fun h2 => ?_⟩⟩ <;>
    unfold SomfyClimate.hvac_mode
  · rw [if_pos h]
  · rw [if_neg h, h2]; rfl
  · rw [if_neg h, h2]; rfl

/-- Claim C6 witness: a timetable-regulated state reads AUTO and a
manually regulated cooling state reads COOL. -/
theorem hvac_mode_timetable_auto_else_mapped_witness :
    SomfyClimate.hvac_mode stDemoAtHome = some HVAC_MODE_AUTO ∧
    SomfyClimate.hvac_mode stCoolAbove = some HVAC_MODE_COOL :=
  ⟨(hvac_mode_timetable_auto_else_mapped stDemoAtHome).1 rfl,
   ((hvac_mode_timetable_auto_else_mapped stCoolAbove).2 (by decide)).2 rfl⟩

/-- Claim C7: hvac_action returns IDLE whenever the current temperature or
the target temperature is unavailable (None). -/
theorem hvac_action_idle_when_unavailable (st : ThermostatState)
    (h : st.ambient_temperature = none ∨ st.target_temperature = none) :
    SomfyClimate.hvac_action st = CURRENT_HVAC_IDLE := by
  unfold SomfyClimate.hvac_action SomfyClimate.current_temperature
    SomfyClimate.target_temperature
  rcases h with h | h <;> rw [h] <;> simp [pyTruthy]

/-- Claim C7 witness: a state with both temperatures absent reads IDLE. -/
theorem hvac_action_idle_when_unavailable_witness :
    SomfyClimate.hvac_action
      { ambient_temperature := none
        humidity := none
        target_temperature := none
        hvac_state := HvacState.heat
        regulation_state := RegulationState.manual
        target_mode := TargetMode.manual
        battery := none
        at_home_temperature := none
        away_temperature := none
        night_temperature := none } = CURRENT_HVAC_IDLE :=
  hvac_action_idle_when_unavailable _ (Or.inl rfl)

/-- Claim C8: set_hvac_mode performs no vendor call when the requested
mode equals the current hvac_mode; otherwise a requested AUTO performs
exactly one cancel_target call, and any other requested mode performs
exactly one set_target call with the MANUAL vendor mode, the currently
reported target temperature, and the FURTHER_NOTICE duration policy. -/
theorem set_hvac_mode_noop_auto_manual (st : ThermostatState) (m : String) :
    (SomfyClimate.hvac_mode st = some m →
       SomfyClimate.set_hvac_mode st m = []) ∧
    (SomfyClimate.hvac_mode st ≠ some m → m = HVAC_MODE_AUTO →
       SomfyClimate.set_hvac_mode st m = [Effect.cancelTarget]) ∧
    (SomfyClimate.hvac_mode st ≠ some m → m ≠ HVAC_MODE_AUTO →
       SomfyClimate.set_hvac_mode st m =
         [Effect.setTarget (PyVal.tm TargetMode.manual)
            (SomfyClimate.target_temperature st) DurationType.further_notice]) := by
  refine ⟨fun h => ?_, fun h ha => ?_, fun h ha => ?_⟩
  · unfold SomfyClimate.set_hvac_mode
    simp [h]
  · subst ha
    unfold SomfyClimate.set_hvac_mode
    simp [h]
  · unfold SomfyClimate.set_hvac_mode
    simp [h, ha]

/-- Claim C8 witness: the three command shapes on concrete states — a
request equal to the current mode, an AUTO request, and a HEAT request on
a cooling device. -/
theorem set_hvac_mode_noop_auto_manual_witness :
    SomfyClimate.set_hvac_mode stDemoAtHome HVAC_MODE_AUTO = [] ∧
    SomfyClimate.set_hvac_mode stCoolAbove HVAC_MODE_AUTO =
      [Effect.cancelTarget] ∧
    SomfyClimate.set_hvac_mode stCoolAbove HVAC_MODE_HEAT =
      [Effect.setTarget (PyVal.tm TargetMode.manual)
         (SomfyClimate.target_temperature stCoolAbove)
         DurationType.further_notice] :=
  ⟨(set_hvac_mode_noop_auto_manual stDemoAtHome HVAC_MODE_AUTO).1 rfl,
   (set_hvac_mode_noop_auto_manual stCoolAbove HVAC_MODE_AUTO).2.1
     (by decide) rfl,
   (set_hvac_mode_noop_auto_manual stCoolAbove HVAC_MODE_HEAT).2.2
     (by decide) (by decide)⟩

/-- A registry of three devices of which exactly the first carries the
HVAC category tag. -/
def demoRegistry : List (String × Device) :=
  [ ("thermostat-1", { categories := [CategoryHVAC] }),
    ("shutter-1", { categories := ["roller_shutter"] }),
    ("sensor-1", { categories := [] }) ]

/-- Claim C9: discovery yields exactly one adapter per registry device
whose category-tag set intersects the supported set, which for the
singleton set means carrying the HVAC tag; in particular the demo registry
of three devices with one HVAC device yields exactly one adapter. -/
theorem get_thermostats_one_adapter_per_hvac_device :
    (∀ registry : List (String × Device),
       (get_thermostats registry).length =
         registry.countP (fun kv => kv.snd.categories.contains CategoryHVAC)) ∧
    (get_thermostats demoRegistry).length = 1 := by
  constructor
  · intro registry
    unfold get_thermostats
    rw [List.length_map, ← List.countP_eq_length_filter]
    have hpred : (fun kv : String × Device =>
        setIntersects SUPPORTED_CATEGORIES kv.snd.categories) =
        fun kv : String × Device => kv.snd.categories.contains CategoryHVAC := by
      funext kv
      simp [setIntersects, SUPPORTED_CATEGORIES]
    rw [hpred]
  · rfl

/-- Claim C10: whenever the vendor reports a current or target temperature
equal to 0.0 — a present, numerically valid reading — hvac_action returns
IDLE, because the availability guard uses Python truthiness and the float
0.0 is falsy; this holds even in states where hvac_mode is HEAT and the
current temperature is strictly below the target. -/
theorem hvac_action_idle_when_temperature_zero (st : ThermostatState)
    (h : st.ambient_temperature = some 0 ∨ st.target_temperature = some 0) :
    SomfyClimate.hvac_action st = CURRENT_HVAC_IDLE := by
  unfold SomfyClimate.hvac_action SomfyClimate.current_temperature
    SomfyClimate.target_temperature
  rcases h with h | h <;> rw [h] <;> simp [pyTruthy]

/-- Claim C10 witness: a heating device at a reported 0.0 degrees with
target 20.0 — hvac_mode is HEAT and current is strictly below target, yet
the action reads IDLE. -/
theorem hvac_action_idle_when_temperature_zero_witness :
    SomfyClimate.hvac_mode
      { ambient_temperature := some 0
        humidity := none
        target_temperature := some 20
        hvac_state := HvacState.heat
        regulation_state := RegulationState.manual
        target_mode := TargetMode.manual
        battery := none
        at_home_temperature := none
        away_temperature := none
        night_temperature := none } = some HVAC_MODE_HEAT ∧
    SomfyClimate.hvac_action
      { ambient_temperature := some 0
        humidity := none
        target_temperature := some 20
        hvac_state := HvacState.heat
        regulation_state := RegulationState.manual
        target_mode := TargetMode.manual
        battery := none
        at_home_temperature := none
        away_temperature := none
        night_temperature := none } = CURRENT_HVAC_IDLE :=
  ⟨rfl, hvac_action_idle_when_temperature_zero _ (Or.inl rfl)⟩
